import Mathlib

set_option maxRecDepth 2048

/-!
Shallow embedding of the Locksmith runtime lock-order verifier
(src/lksmith.c) together with theorems checking the design document
against it.

Modelling conventions:
* machine integers are `Nat`, with an explicit `% 2 ^ 64` where size_t
  wraparound matters;
* fallible C code returns `Option` / `Except` or a dedicated outcome
  inductive; undefined behaviour in the source (an out-of-bounds store,
  a null dereference, a missing return statement, a self-looping goto)
  is surfaced as an explicit constructor of the outcome type;
* the process-wide error callback is identified by a numeric handle,
  and invoking it is recorded as an event
  (callback handle, error code, message);
* the headers lksmith.h, util/bitfield.h and config.h are not part of
  src/, so the constants and macros they declare are either taken as
  parameters (LKSMITH_LOCK_NAME_MAX, LKSMITH_THREAD_NAME_MAX,
  sizeof(struct lksmith_lock_data), LKSMITH_API_VERSION) or modelled
  from the design document (the BITFIELD macros, whose byte footprint
  src/lksmith.c itself recomputes inline on lines 313-314);
* the source body refers to the parameter `__mutex` as `mutex`; the
  model reads the two as the same object.
-/

namespace Lksmith

/-- Locksmith error codes used by src/lksmith.c (declared in lksmith.h,
which is not under src/; modelled as an inductive). -/
inductive LksmithError
  | oom
  | createWhileInUse
  | destroyWhileInUse
  | multipleDestroy
  | orderViolation
deriving DecidableEq

/-- POSIX errno values used by src/lksmith.c. -/
inductive CErrno
  | enomem
  | einval
  | eio
  | enametoolong
deriving DecidableEq

/-- Return value of an lksmith entry point: 0 on success, otherwise an
errno value (returned positive by lksmith_mutex_init and negated by
lksmith_verion_to_str; the sign convention itself is not modelled). -/
inductive CRet
  | ok
  | err (e : CErrno)
deriving DecidableEq

/-- lksmith_error_to_errno, src/lksmith.c lines 247-258. -/
def lksmith_error_to_errno : LksmithError → CErrno
  | .oom => .enomem
  | .destroyWhileInUse => .einval
  | .createWhileInUse => .einval
  | _ => .eio

/-- Modelled from the spec: util/bitfield.h is not under src/.  Byte
footprint of an n-bit bitfield (design document section 4.1); the source
recomputes the same footprint inline as (bits + 7) / 8 on lines 313-314
of src/lksmith.c. -/
def BITFIELD_MEM (n : ℕ) : ℕ := (n + 7) / 8

/-- Modelled from the spec: BITFIELD_TEST reads bit i of a bitfield.  A
bitfield allocated with b bytes is modelled as a list of 8 * b booleans,
one list entry per addressable bit. -/
def BITFIELD_TEST (b : List Bool) (i : ℕ) : Bool := b.getD i false

/-- Modelled from the spec: BITFIELD_SET writes bit i.  This version
keeps the allocation bound explicit: storing a bit outside the allocated
footprint is an out-of-bounds write, returned as none. -/
def bitfieldSetChecked (b : List Bool) (i : ℕ) : Option (List Bool) :=
  if i < b.length then some (b.set i true) else none

/-- Modelled from the spec: BITFIELD_SET under the permissive memory
model in which an out-of-bounds store happens to land in writable
memory, so that executions can be continued past it (used to settle the
lifecycle claims, which need several calls in sequence). -/
def bitfieldSetPermissive (b : List Bool) (i : ℕ) : List Bool :=
  (b ++ List.replicate (i + 1 - b.length) false).set i true

/-- struct lksmith_lock_data, src/lksmith.c lines 48-59. -/
structure LockRecord where
  name : String
  nlock : ℕ
  id : ℕ
  before_size : ℕ
  before : List Bool
deriving DecidableEq

/-- struct lksmith_tls, src/lksmith.c lines 61-68. -/
structure LksmithTls where
  name : String
  held_size : ℕ
  held : List Bool
deriving DecidableEq

/-- The globals g_error_cb, g_locks, g_locks_size and g_locks_used of
src/lksmith.c lines 96-115.  g_locks_len is the number of pointer slots
allocated for the g_locks array (the record pointers themselves are not
needed by any claim); g_locks_used is the used bitmap, one list entry
per allocated bit (8 per allocated byte); the error callback is an
opaque numeric handle. -/
structure Registry where
  g_locks_size : ℕ
  g_locks_len : ℕ
  g_locks_used : List Bool
  g_error_cb : ℕ
deriving DecidableEq

/-- The scan loop of lksmith_alloc_next_lock_id, src/lksmith.c lines
338-342: i runs from 0 while i < g_locks_size and stops early at the
first clear used-bit; the value of the function is the loop variable
after the loop (first clear index, or g_locks_size when every bit below
the size is set). -/
def scanUsed (used : List Bool) (size : ℕ) : ℕ :=
  ((List.range size).find? (fun i => ! BITFIELD_TEST used i)).getD size

/-- The growth arm of lksmith_alloc_next_lock_id, src/lksmith.c lines
344-357: when BITFIELD_MEM i exceeds BITFIELD_MEM g_locks_size, realloc
g_locks_used to BITFIELD_MEM i bytes (realloc leaves the added bytes
uninitialized; they are modelled as false, which never matters because
this arm is unreachable, see c8_growth_branch_dead), realloc g_locks to
i pointer slots, and set g_locks_size = i. -/
def growRegistry (st : Registry) (i : ℕ) : Registry :=
  let used :=
    if BITFIELD_MEM st.g_locks_size < BITFIELD_MEM i then
      st.g_locks_used ++ List.replicate (8 * BITFIELD_MEM i - st.g_locks_used.length) false
    else st.g_locks_used
  { st with g_locks_used := used, g_locks_len := i, g_locks_size := i }

/-- Outcome of lksmith_alloc_next_lock_id under the byte-exact memory
model: a locksmith OOM error, an out-of-bounds BITFIELD_SET at the given
index (undefined behaviour), or the updated registry with the id. -/
inductive AllocOut
  | oom
  | oobWrite (i : ℕ)
  | ok (st : Registry) (id : ℕ)
deriving DecidableEq

/-- lksmith_alloc_next_lock_id, src/lksmith.c lines 332-361, under the
byte-exact memory model.  reallocOk says whether the reallocs in the
growth arm would succeed.  Note the growth test on line 344 is the
strict comparison i > g_locks_size, exactly as in the source. -/
def lksmith_alloc_next_lock_id (reallocOk : Bool) (st : Registry) : AllocOut :=
  let i := scanUsed st.g_locks_used st.g_locks_size
  if st.g_locks_size < i then
    if reallocOk then
      match bitfieldSetChecked (growRegistry st i).g_locks_used i with
      | some u => AllocOut.ok { growRegistry st i with g_locks_used := u } i
      | none => AllocOut.oobWrite i
    else AllocOut.oom
  else
    match bitfieldSetChecked st.g_locks_used i with
    | some u => AllocOut.ok { st with g_locks_used := u } i
    | none => AllocOut.oobWrite i

/-- lksmith_alloc_next_lock_id under the permissive memory model (the
final BITFIELD_SET is assumed to land in writable memory even when out
of bounds), used to continue executions through lksmith_mutex_init.
Same control flow as lksmith_alloc_next_lock_id. -/
def lksmith_alloc_next_lock_id_noUB (reallocOk : Bool) (st : Registry) :
    Except LksmithError (Registry × ℕ) :=
  let i := scanUsed st.g_locks_used st.g_locks_size
  if st.g_locks_size < i then
    if reallocOk then
      Except.ok ({ growRegistry st i with
        g_locks_used := bitfieldSetPermissive (growRegistry st i).g_locks_used i }, i)
    else Except.error LksmithError.oom
  else
    Except.ok ({ st with g_locks_used := bitfieldSetPermissive st.g_locks_used i }, i)

/-- snprintf into a buffer of n bytes producing the text s: the stored
string is s truncated to n - 1 characters (leaving room for the
terminating NUL), and nothing is stored when n = 0. -/
def snprintfStr (n : ℕ) (s : String) : String := (s.toList.take (n - 1)).asString

/-- The message formatted on src/lksmith.c lines 393-394 into the
256-byte buf. -/
def initInUseMsg (name : String) : String :=
  snprintfStr 256 ("lksmith_mutex_init(" ++ name ++ ") this mutex has already been initialized!")

/-- The message formatted on src/lksmith.c lines 383-384. -/
def initOomIdMsg (name : String) : String :=
  snprintfStr 256 ("lksmith_mutex_init(" ++ name ++ ") out of memory trying to allocate a new lock id.")

/-- The message of src/lksmith.c lines 376-377; the source supplies no
argument for the %s conversion there (undefined behaviour), so the
message is modelled as the raw format text. -/
def initOomDataMsg : String :=
  snprintfStr 256 ("lksmith_mutex_init(%s) out of memory trying to allocate lksmith_lock_data.")

/-- The message of src/lksmith.c lines 477-478, truncated to the
1024-byte buffer of lksmith_print_error_unlocked. -/
def setThreadNameOomMsg (name : String) : String :=
  snprintfStr 1024 ("lksmith_set_thread_name(" ++ name ++ "): failed to allocate thread-local storage.")

/-- Result of lksmith_mutex_init: the return value, the association of
the target mutex after the call, the registry after the call, the
records passed to free during the call, and the error-callback
invocations performed. -/
structure InitOut where
  ret : CRet
  assoc : Option LockRecord
  reg : Registry
  freed : List LockRecord
  events : List (ℕ × LksmithError × String)
deriving DecidableEq

/-- lksmith_mutex_init, src/lksmith.c lines 363-406.  allocData is the
outcome of the lksmith_realloc_lock_data call on line 372 (none: the
allocation failed and data is still NULL, so the later free is a no-op;
some data0: the record it built, whose field contents are taken as given
because that function is ill-formed, see the reallocLockData
definitions).  idAllocOk feeds the growth arm of the id allocator.
assoc is mutex->info.data before the call; the compare-and-swap on line
389 installs the new record only when the association is null, and on
any error the path at lines 400-405 reads the current callback, frees
data and invokes the callback once with the formatted buf, returning
lksmith_error_to_errno of the code.  The tokens `goto error:` on line
385 (a slip for `goto error`) and `mutex` (for the parameter `__mutex`)
are read as intended. -/
def lksmith_mutex_init (lockNameMax : ℕ) (allocData : Option LockRecord)
    (idAllocOk : Bool) (name : String) (assoc : Option LockRecord)
    (reg : Registry) : InitOut :=
  match allocData with
  | none =>
      { ret := CRet.err (lksmith_error_to_errno LksmithError.oom)
        assoc := assoc
        reg := reg
        freed := []
        events := [(reg.g_error_cb, LksmithError.oom, initOomDataMsg)] }
  | some data0 =>
      match lksmith_alloc_next_lock_id_noUB idAllocOk reg with
      | Except.error _ =>
          { ret := CRet.err (lksmith_error_to_errno LksmithError.oom)
            assoc := assoc
            reg := reg
            freed := [data0]
            events := [(reg.g_error_cb, LksmithError.oom, initOomIdMsg name)] }
      | Except.ok (reg1, next) =>
          match assoc with
          | some prev =>
              { ret := CRet.err (lksmith_error_to_errno LksmithError.createWhileInUse)
                assoc := some prev
                reg := reg1
                freed := [{ data0 with id := next, name := name.take (lockNameMax - 1) }]
                events := [(reg1.g_error_cb, LksmithError.createWhileInUse, initInUseMsg name)] }
          | none =>
              { ret := CRet.ok
                assoc := some { data0 with id := next, name := name.take (lockNameMax - 1) }
                reg := reg1
                freed := []
                events := [] }

/-- Outcome of lksmith_mutex_destroy. -/
inductive DestroyOutcome
  | ok (freedPtr : ℕ)
  | nullDerefName
  | fallsOffEnd
  | infiniteLoop
deriving DecidableEq

/-- lksmith_mutex_destroy, src/lksmith.c lines 408-451.  Associations
are modelled as optional pointers (numeric handles), because the
compare-and-swap on lines 419-420 compares addresses.  cur is
mutex->info.data as read on line 417; prev is the value the
compare-and-swap observes (different from cur only when another thread
mutated the association in between).  The branches, from the source:
* cur null: line 418 reads cur->name through the null pointer, which is
  undefined behaviour before any error test runs.  Were that read
  survived, prev = cur = NULL would make the compare-and-swap succeed,
  so the function would free(NULL) and return 0 with no report.
* prev = cur: success -- free(prev) and return 0.
* prev null while cur is not: line 423 sets ret to
  LKSMITH_ERROR_MULTIPLE_DESTROY, but at the error label (lines
  443-451) the `if (prev)` guard is false, so the callback is never
  invoked and control falls off the end of a non-void function with no
  return statement.
* prev non-null and different from cur: line 429 sets ret to
  LKSMITH_ERROR_DESTROY_WHILE_IN_USE, but the error label re-enters
  itself (`goto error` with prev still non-null): an infinite loop that
  also references the undeclared variable error_cb. -/
def lksmith_mutex_destroy (cur prev : Option ℕ) : DestroyOutcome :=
  match cur with
  | none => DestroyOutcome.nullDerefName
  | some c =>
      if prev = some c then DestroyOutcome.ok c
      else
        match prev with
        | none => DestroyOutcome.fallsOffEnd
        | some _ => DestroyOutcome.infiniteLoop

/-- lksmith_pthread_mutex_lock, src/lksmith.c lines 453-455.  The body
of the function is empty: no lock record is resolved, no thread state is
consulted, no before or held bitset is read or written, the error
callback is never invoked, and the underlying pthread_mutex_lock is
never called (control also falls off the end of a non-void function, so
the return value is undefined and is not modelled).  The model returns
the registry and the calling thread state unchanged together with the
(empty) list of callback invocations. -/
def lksmith_pthread_mutex_lock (m : ℕ) (reg : Registry) (tls : LksmithTls) :
    Registry × LksmithTls × List (ℕ × LksmithError × String) :=
  (reg, tls, [])

/-- Outcome of lksmith_set_thread_name: either the updated thread state,
or a dereference of the null thread-state pointer; both carry the
callback invocations performed before that point. -/
inductive SetThreadNameOut
  | nullDeref (events : List (ℕ × LksmithError × String))
  | ok (tls : LksmithTls) (events : List (ℕ × LksmithError × String))
deriving DecidableEq

/-- lksmith_set_thread_name, src/lksmith.c lines 471-481.  tlsOpt is the
result of get_or_create_tls (none on allocation failure), cb the current
error callback handle, threadNameMax the LKSMITH_THREAD_NAME_MAX
constant from the header.  When tlsOpt is none the function reports the
OOM through the callback, but the `if (!tls)` block has no return
statement, so the snprintf on line 480 then writes through the null tls
pointer. -/
def lksmith_set_thread_name (threadNameMax cb : ℕ) (tlsOpt : Option LksmithTls)
    (name : String) : SetThreadNameOut :=
  match tlsOpt with
  | none => SetThreadNameOut.nullDeref [(cb, LksmithError.oom, setThreadNameOomMsg name)]
  | some tls => SetThreadNameOut.ok { tls with name := name.take (threadNameMax - 1) } []

/-- (LKSMITH_API_VERSION >> 16) & 0xffff of src/lksmith.c line 270; a
right shift by 16 of a uint32_t is division by 2 ^ 16 and the mask is
reduction mod 2 ^ 16. -/
def versionMajor (api : ℕ) : ℕ := api / 2 ^ 16 % 2 ^ 16

/-- LKSMITH_API_VERSION & 0xffff of src/lksmith.c line 270. -/
def versionMinor (api : ℕ) : ℕ := api % 2 ^ 16

/-- The %d.%d text that the snprintf on src/lksmith.c lines 269-270
produces: both halves are below 2 ^ 16, so %d prints their decimal
digits. -/
def versionString (api : ℕ) : String :=
  toString (versionMajor api) ++ "." ++ toString (versionMinor api)

/-- C99 snprintf(str, n, ...) producing the text s: it returns the full
untruncated length and stores min(length of s, n - 1) characters plus a
terminating NUL (not modelled) -- nothing at all when n = 0. -/
def snprintf_model (s : String) (n : ℕ) : ℕ × List Char :=
  (s.length, s.toList.take (n - 1))

/-- lksmith_verion_to_str, src/lksmith.c lines 265-278 (the typo is the
source function name).  api stands for the compiled-in
LKSMITH_API_VERSION constant (declared in lksmith.h, which is not under
src/, hence a parameter); the ver parameter is accepted and ignored,
exactly as in the source, which formats LKSMITH_API_VERSION instead.
The first component models the return value (0, -EIO or -ENAMETOOLONG),
the second the text left in the destination buffer. -/
def lksmith_verion_to_str (api ver str_len : ℕ) : CRet × List Char :=
  if ((snprintf_model (versionString api) str_len).1 : Int) < 0 then
    (CRet.err CErrno.eio, (snprintf_model (versionString api) str_len).2)
  else if str_len ≤ (snprintf_model (versionString api) str_len).1 then
    (CRet.err CErrno.enametoolong, (snprintf_model (versionString api) str_len).2)
  else (CRet.ok, (snprintf_model (versionString api) str_len).2)

/-- From lksmith_realloc_lock_data, src/lksmith.c lines 292-322, under
the generous reading in which the self-shadowing initializer on lines
296-297 -- `size_t new_size = sizeof(struct lksmith_lock_data) +
BITFIELD_MEM(new_size);`, which as written shadows the int parameter and
reads the uninitialized local it is declaring -- is taken to read the
parameter: the total byte count handed to realloc, which line 319 then
stores into the record's before_size field in place of the requested bit
capacity.  hdr stands for sizeof(struct lksmith_lock_data). -/
def reallocLockDataStoredBeforeSize (hdr new_n : ℕ) : ℕ := hdr + BITFIELD_MEM new_n

/-- The third argument of the memset on src/lksmith.c line 316,
new_byte_size - new_size, evaluated in size_t arithmetic as a function
of the byte-count value new_size, with new_byte_size = (new_size + 7) /
8 from line 314.  Both operands are already byte counts, so
new_byte_size < new_size for every new_size of at least 2 and the
unsigned subtraction wraps. -/
def reallocLockDataZeroFillLen (new_size : ℕ) : ℕ :=
  ((new_size + 7) / 8 + 2 ^ 64 - new_size) % 2 ^ 64

/-- The pristine globals of src/lksmith.c lines 102-115: g_locks NULL,
g_locks_size 0, g_locks_used NULL; callback handle 0 stands for the
default lksmith_error_cb_to_stderr. -/
def reg0 : Registry :=
  { g_locks_size := 0, g_locks_len := 0, g_locks_used := [], g_error_cb := 0 }

/-- A registry whose capacity of 8 lock ids (one allocated byte of used
bitmap) is exhausted, so that the scan of lksmith_alloc_next_lock_id
finds no clear bit below g_locks_size. -/
def reg8full : Registry :=
  { g_locks_size := 8, g_locks_len := 8, g_locks_used := List.replicate 8 true,
    g_error_cb := 0 }

/-- A record as lksmith_realloc_lock_data is meant to produce it (all
fields zeroed); stands for the allocData argument of
lksmith_mutex_init. -/
def fresh0 : LockRecord :=
  { name := "", nlock := 0, id := 0, before_size := 0, before := [] }

/-- A pre-existing record registered under the name A. -/
def recA : LockRecord := { fresh0 with name := "A" }

/-- First init call of the duplicate-id scenario: init(A) on an
unassociated mutex, starting from the pristine globals. -/
def initOut1 : InitOut := lksmith_mutex_init 16 (some fresh0) true ("A") none reg0

/-- Second init call of the duplicate-id scenario: init(B) on a second,
distinct, unassociated mutex, in the registry state left by the first
call. -/
def initOut2 : InitOut := lksmith_mutex_init 16 (some fresh0) true ("B") none initOut1.reg

/-- The scan loop of lksmith_alloc_next_lock_id stops at the first clear
bit or at g_locks_size, so its result never exceeds g_locks_size. -/
theorem scanUsed_le (used : List Bool) (size : ℕ) : scanUsed used size ≤ size := by
  unfold scanUsed
  cases h : (List.range size).find? (fun i => ! BITFIELD_TEST used i) with
  | none => simp
  | some i =>
      simp only [h, Option.getD_some]
      exact Nat.le_of_lt (List.mem_range.mp (List.mem_of_find?_eq_some h))

/-- In every state and with either realloc outcome, the growth arm of
the permissive id allocator is dead (the scan result never exceeds
g_locks_size), so the allocator returns the scan result after setting
its bit, without ever growing the registry. -/
theorem lksmith_alloc_next_lock_id_noUB_eq (ok : Bool) (st : Registry) :
    lksmith_alloc_next_lock_id_noUB ok st
      = Except.ok ({ st with g_locks_used := bitfieldSetPermissive st.g_locks_used (scanUsed st.g_locks_used st.g_locks_size) }, scanUsed st.g_locks_used st.g_locks_size) := by
  simp only [lksmith_alloc_next_lock_id_noUB]
  rw [if_neg (Nat.not_lt.mpr (scanUsed_le st.g_locks_used st.g_locks_size))]

/-- C1: the claim says every acquire of a tracked lock tests, for each
lock id h in the calling thread's held bitset, whether h's record's
before set contains the acquired lock's id, reporting an OrderViolation
through the error callback while the acquisition still proceeds.  The
source's lock wrapper has an empty body: it leaves the registry and the
thread state untouched and performs no callback invocation whatsoever,
so in particular no OrderViolation is ever reported (evidence for the
code_bug verdict on this claim). -/
theorem c1_lock_wrapper_checks_nothing (m : ℕ) (reg : Registry) (tls : LksmithTls) :
    (lksmith_pthread_mutex_lock m reg tls).1 = reg
  ∧ (lksmith_pthread_mutex_lock m reg tls).2.1 = tls
  ∧ (lksmith_pthread_mutex_lock m reg tls).2.2 = [] :=
  ⟨rfl, rfl, rfl⟩

/-- C2 counterexample: init(B) on a mutex whose association already
points at a record registered under the original name A does fail, but
the message handed to the error callback is built from the name B that
the failing call passed; the original name A occurs nowhere in it. -/
theorem c2_in_use_report_uses_new_name :
    recA.name = "A"
  ∧ (lksmith_mutex_init 16 (some fresh0) true ("B") (some recA) reg0).events
      = [(0, LksmithError.createWhileInUse, initInUseMsg ("B"))]
  ∧ (initInUseMsg ("B")).toList.contains ('A') = false :=
  ⟨rfl, by decide, by decide⟩

/-- C2 amended: init on an already-associated mutex fails with
CreateWhileInUse (mapped to errno EINVAL on return, with the
CreateWhileInUse code itself going to the callback), discards exactly
the newly built record, leaves the pre-existing association and record
unchanged, and reports through the active callback a message built from
the name passed to the failing call (not from the pre-existing record's
name). -/
theorem c2_init_while_in_use (nameMax : ℕ) (d : LockRecord) (ok : Bool)
    (name : String) (prev : LockRecord) (reg : Registry) :
    (lksmith_mutex_init nameMax (some d) ok name (some prev) reg).ret
        = CRet.err (lksmith_error_to_errno LksmithError.createWhileInUse)
  ∧ (lksmith_mutex_init nameMax (some d) ok name (some prev) reg).assoc = some prev
  ∧ (lksmith_mutex_init nameMax (some d) ok name (some prev) reg).freed
        = [{ d with id := scanUsed reg.g_locks_used reg.g_locks_size, name := name.take (nameMax - 1) }]
  ∧ (lksmith_mutex_init nameMax (some d) ok name (some prev) reg).events
        = [(reg.g_error_cb, LksmithError.createWhileInUse, initInUseMsg name)] := by
  simp [lksmith_mutex_init, lksmith_alloc_next_lock_id_noUB_eq]

/-- C3: evaluation of lksmith_mutex_destroy on the claim's failure
inputs.  With the association already null, the name read dereferences
the null pointer before any error test (and even past that, the
compare-and-swap from null to null would succeed, returning 0 with no
report); with the association gone null between the read and the
compare-and-swap, the error path never invokes the callback and falls
off the end of the function; with the association changed to a
different record, the error path loops forever.  In no case is
MultipleDestroy or DestroyWhileInUse reported through the callback or a
failure code returned, contrary to the claim. -/
theorem c3_destroy_error_paths_broken :
    lksmith_mutex_destroy none none = DestroyOutcome.nullDerefName
  ∧ lksmith_mutex_destroy (some 1) none = DestroyOutcome.fallsOffEnd
  ∧ lksmith_mutex_destroy (some 1) (some 2) = DestroyOutcome.infiniteLoop :=
  ⟨rfl, by decide, by decide⟩

/-- C4: from the pristine globals (capacity 0, used bitmap NULL) no
index below the capacity has a clear used-bit, so the claim requires the
table and the used bitmap to be grown; instead the growth test
`i > g_locks_size` on line 344 is false (the scan leaves i = 0 =
g_locks_size), nothing is grown, and BITFIELD_SET stores bit 0 into the
NULL bitmap: an out-of-bounds write, not a grown-and-marked slot. -/
theorem c4_alloc_id_does_not_grow :
    lksmith_alloc_next_lock_id true reg0 = AllocOut.oobWrite 0 := by decide

/-- C5: two successive init calls on two distinct unassociated mutexes,
starting from the pristine globals, both succeed and both install
records carrying LockId 0, so the assigned ids are not pairwise distinct
and two live records share a LockId: g_locks_size is never advanced by
the allocator, so every scan restarts below capacity 0 and returns 0. -/
theorem c5_duplicate_lock_ids :
    initOut1.ret = CRet.ok
  ∧ initOut2.ret = CRet.ok
  ∧ initOut1.assoc.map LockRecord.id = some 0
  ∧ initOut2.assoc.map LockRecord.id = some 0 := by decide

/-- C6: the grow operation confuses bit and byte counts twice over.
Growing to the minimum capacity of 16 bits stores into before_size the
total allocation byte count -- with sizeof(struct lksmith_lock_data)
taken as 32 for concreteness, that is 34, not the 16-bit capacity the
contract requires -- and the zero-fill memset length new_byte_size -
new_size is computed from two quantities that are already byte counts,
wrapping in size_t to more than 2 ^ 63 for the 48-byte allocation that
a grow to 128 bits would request, instead of zero-filling exactly the
new bytes. -/
theorem c6_grow_confuses_bits_and_bytes :
    16 < reallocLockDataStoredBeforeSize 32 16
  ∧ 2 ^ 63 < reallocLockDataZeroFillLen 48 := by decide

/-- C7: for every value of the compiled-in packed version constant and
every destination buffer length, the version-to-string operation writes
exactly the MAJOR.MINOR decimal rendering of the constant and returns
success when the buffer can hold it together with its terminating NUL;
when the buffer is undersized it returns the name-too-long failure, and
in every case the characters stored fit strictly inside the buffer
(snprintf truncation). -/
theorem c7_version_to_str_spec (api ver str_len : ℕ) :
    ((versionString api).length < str_len →
        lksmith_verion_to_str api ver str_len = (CRet.ok, (versionString api).toList))
  ∧ (str_len ≤ (versionString api).length →
        lksmith_verion_to_str api ver str_len
          = (CRet.err CErrno.enametoolong, (versionString api).toList.take (str_len - 1)))
  ∧ (lksmith_verion_to_str api ver str_len).2.length ≤ str_len - 1 := by
  refine ⟨?_, ?_, ?_⟩
  · intro h
    unfold lksmith_verion_to_str snprintf_model
    split_ifs with h1 h2
    · exact absurd h1 (not_lt.mpr (Int.natCast_nonneg _))
    · exact absurd h2 (Nat.not_le.mpr h)
    · exact congrArg (Prod.mk CRet.ok) (List.take_of_length_le (Nat.le_pred_of_lt h))
  · intro h
    unfold lksmith_verion_to_str snprintf_model
    split_ifs with h1
    · exact absurd h1 (not_lt.mpr (Int.natCast_nonneg _))
    · rfl
  · unfold lksmith_verion_to_str snprintf_model
    split_ifs <;> simp only [List.length_take] <;> omega

/-- C7 witness: with the packed constant 65538 (major 1, minor 2) the
rendering is the three-character text 1.2, so a 16-byte buffer succeeds
and a 2-byte buffer fails with the name-too-long code. -/
theorem c7_version_to_str_spec_witness :
    ((versionString 65538).length < 16
      ∧ lksmith_verion_to_str 65538 7 16 = (CRet.ok, (versionString 65538).toList))
  ∧ (2 ≤ (versionString 65538).length
      ∧ lksmith_verion_to_str 65538 7 2
          = (CRet.err CErrno.enametoolong, (versionString 65538).toList.take (2 - 1))) :=
  ⟨⟨by decide, (c7_version_to_str_spec 65538 7 16).1 (by decide)⟩,
   ⟨by decide, (c7_version_to_str_spec 65538 7 2).2.1 (by decide)⟩⟩

/-- C8: the growth arm of lksmith_alloc_next_lock_id can never run --
after the scan loop the index is at most g_locks_size, so the strict
test `i > g_locks_size` on line 344 never holds -- and consequently,
when the scan exhausts a full bitmap (here all 8 ids of the one
allocated byte are used), the used-bit write lands at index
g_locks_size, outside the allocated footprint, instead of in a freshly
grown slot of capacity greater than the index. -/
theorem c8_growth_branch_dead :
    (∀ st : Registry, scanUsed st.g_locks_used st.g_locks_size ≤ st.g_locks_size)
  ∧ lksmith_alloc_next_lock_id true reg8full = AllocOut.oobWrite 8 :=
  ⟨fun st => scanUsed_le st.g_locks_used st.g_locks_size, by decide⟩

/-- C9: when get_or_create_tls fails, lksmith_set_thread_name does
report the out-of-memory error through the callback, but the `if
(!tls)` block does not return, so the snprintf into tls->name then
dereferences the null thread-state pointer -- contradicting the part of
the claim that says the null state is never dereferenced. -/
theorem c9_set_thread_name_null_deref :
    lksmith_set_thread_name 16 0 none ("worker")
      = SetThreadNameOut.nullDeref [(0, LksmithError.oom, setThreadNameOomMsg ("worker"))] := by
  decide

/-- C10: lksmith_verion_to_str never reads its ver argument -- the text
comes from the compiled-in LKSMITH_API_VERSION constant -- so for the
same constant and buffer length, any two ver values give the identical
return value and the identical buffer contents. -/
theorem c10_version_str_ignores_ver (api ver1 ver2 str_len : ℕ) :
    lksmith_verion_to_str api ver1 str_len = lksmith_verion_to_str api ver2 str_len := rfl

end Lksmith
